import Mathlib

/-!
Verification development for the `archiver` cog (`archiver/archiver.py`).

The Python source is shallowly embedded: message documents become the
`Record` structure, each storage backend's state becomes a `List Record`
(insertion order preserved, as in `TinyDB.insert` / Mongo collections),
stateful methods become explicit state-passing functions, fallible network
operations return `Except`, and the unbounded `while True` pagination loops
of `Archiver.archive_channel` take a fuel parameter and return `Option`
(`none` = the loop did not finish within the given fuel).
-/

/-- One archived message document.  The Python code stores raw JSON dicts;
the fields the archiver actually inspects are `id` (converted with `int`),
`author.id` and `channel_id`, embedded here as the three `Nat` fields. -/
structure Record where
  id : Nat
  authorId : Nat
  channelId : Nat
deriving DecidableEq

/-- `self.db.contains(Message.id == msg['id'])` from `TinyDBArchive`:
does the stored list hold a document with the given id? -/
def tinyContains (db : List Record) (i : Nat) : Bool :=
  db.any (fun m => m.id == i)

/-- `TinyDBArchive.add_messages(messages, all_new)` (the later, async
definition at lines 119-126, which overrides the earlier synchronous one):
for each message, insert it when `all_new` is set or no stored document has
its id, and count the inserts.  Returns the new store and the count. -/
def TinyDBArchive.add_messages : List Record → List Record → Bool → List Record × Nat
  | db, [], _ => (db, 0)
  | db, m :: rest, allNew =>
    if allNew || !tinyContains db m.id then
      let res := TinyDBArchive.add_messages (db ++ [m]) rest allNew
      (res.1, res.2 + 1)
    else
      TinyDBArchive.add_messages db rest allNew

/-- `await self.db.messages.find_one({'_id': m['_id']})` from
`MongoMotorArchive.add_messages`; the code sets `m['_id'] = m['id']`, so the
lookup key is the message id. -/
def mongoFindOne (db : List Record) (i : Nat) : Option Record :=
  db.find? (fun m => m.id == i)

/-- `MongoMotorArchive.add_messages(messages, all_new)` (lines 148-161).
With `all_new` the code calls `insert_one` unconditionally; the remote
document store enforces a unique `_id` index, so inserting an id that is
already present raises a duplicate-key error, modelled as `Except.error`.
Without `all_new` it first runs `find_one` and only inserts on a miss. -/
def MongoMotorArchive.add_messages : List Record → List Record → Bool → Except String (List Record × Nat)
  | db, [], _ => Except.ok (db, 0)
  | db, m :: rest, allNew =>
    if allNew then
      if (mongoFindOne db m.id).isSome then
        Except.error "DuplicateKeyError"
      else
        match MongoMotorArchive.add_messages (db ++ [m]) rest allNew with
        | Except.ok res => Except.ok (res.1, res.2 + 1)
        | Except.error e => Except.error e
    else
      match mongoFindOne db m.id with
      | some _ => MongoMotorArchive.add_messages db rest allNew
      | none =>
        match MongoMotorArchive.add_messages (db ++ [m]) rest allNew with
        | Except.ok res => Except.ok (res.1, res.2 + 1)
        | Except.error e => Except.error e

/-- The three shapes `Archive.get_messages` accepts for its `user` /
`channel` arguments: "anything with an id attribute, a dictionary containing
a key['id'] or just an id" (the docstring at lines 48-50). -/
inductive FilterArg where
  | obj (id : Nat)
  | dict (id : Nat)
  | raw (id : Nat)
deriving DecidableEq

/-- The argument-normalisation chain of `Archive.get_messages` (lines 53-61):
`hasattr(x, 'id')` and `isinstance(x, dict)` take the id; otherwise the bare
value is used only when truthy (`elif user:`), so the Python-falsy raw id
`0` leaves the filter unset. -/
def resolveFilter : Option FilterArg → Option Nat
  | none => none
  | some (FilterArg.obj i) => some i
  | some (FilterArg.dict i) => some i
  | some (FilterArg.raw i) => if i == 0 then none else some i

/-- One `continue` guard of the `get_messages` loop: a message passes when
the filter id is unset or equals the message's attribute. -/
def passFilter (idOpt : Option Nat) (actual : Nat) : Bool :=
  match idOpt with
  | none => true
  | some i => i == actual

/-- `Archive.get_messages(user, channel)` (lines 47-69): yield every stored
message whose author id and channel id pass the resolved filters, in store
order. -/
def Archive.get_messages (db : List Record) (user channel : Option FilterArg) : List Record :=
  db.filter (fun m =>
    passFilter (resolveFilter user) m.authorId && passFilter (resolveFilter channel) m.channelId)

/-- The id an argument carries, with no truthiness test.  Used only by
`get_messages_claim` below. -/
def claimedId : Option FilterArg → Option Nat
  | none => none
  | some (FilterArg.obj i) => some i
  | some (FilterArg.dict i) => some i
  | some (FilterArg.raw i) => some i

/-- Restatement of the query contract in the spec's words, for comparison
with `Archive.get_messages`: "all stored records matching the given optional
filters", an omitted filter matching everything and a supplied filter
matching by id equality. -/
def get_messages_claim (db : List Record) (user channel : Option FilterArg) : List Record :=
  db.filter (fun m =>
    passFilter (claimedId user) m.authorId && passFilter (claimedId channel) m.channelId)

/-- One iteration of the watermark loop of `Archiver.archive_channel`
(lines 248-256), transcribed exactly as written:
`oldest_id = min(latest_id, int(msg['id']))` then
`latest_id = max(latest_id, int(msg['id']))` — the first assignment reads
`latest_id`, not `oldest_id`, and both read the pre-iteration `latest_id`. -/
def watermarkStep (ol : Nat × Nat) (m : Record) : Nat × Nat :=
  (min ol.2 m.id, max ol.2 m.id)

/-- The watermark-computation phase of `Archiver.archive_channel`
(lines 244-256): both watermarks are seeded from `msg1` and the remaining
enumerated messages are folded through `watermarkStep`.  Result is
`(oldest_id, latest_id)`. -/
def computeWatermarks (msg1 : Record) (scan : List Record) : Nat × Nat :=
  scan.foldl watermarkStep (msg1.id, msg1.id)

/-- Outcome of one `archive_channel` call: the backend store at return, the
returned `added` count, and whether `self.archive.flush()` ran on the taken
return path. -/
structure SyncResult where
  db : List Record
  added : Nat
  flushed : Bool
deriving DecidableEq

/-- `for msg in messages: latest_id = max(latest_id, int(msg['id']))`
(lines 265-266). -/
def pageMax (init : Nat) (page : List Record) : Nat :=
  page.foldl (fun l m => max l m.id) init

/-- `for msg in messages: oldest_id = min(oldest_id, int(msg['id']))`
(lines 274-275). -/
def pageMin (init : Nat) (page : List Record) : Nat :=
  page.foldl (fun o m => min o m.id) init

/-- The "Get new messages" loop of `archive_channel` (lines 259-266):
fetch a page after `latest_id`; stop on an empty page, otherwise insert it
with `all_new=True`, advance `latest_id` to the page maximum and repeat.
`fetch before after` stands for `self._fetch_messages(channel, before=…,
after=…)`; the fuel bounds the number of iterations of the unbounded
`while True`, `none` meaning the fuel ran out first. -/
def forwardLoop (fetch : Option Nat → Option Nat → List Record) :
    Nat → List Record → Nat → Nat → Option (List Record × Nat × Nat)
  | 0, _, _, _ => none
  | fuel + 1, db, latest, added =>
    let page := fetch none (some latest)
    if page.isEmpty then
      some (db, latest, added)
    else
      let res := TinyDBArchive.add_messages db page true
      forwardLoop fetch fuel res.1 (pageMax latest page) (added + res.2)

/-- The "Get old messages" loop of `archive_channel` (lines 269-275):
symmetric to `forwardLoop`, fetching before `oldest_id` and lowering it to
the page minimum. -/
def backwardLoop (fetch : Option Nat → Option Nat → List Record) :
    Nat → List Record → Nat → Nat → Option (List Record × Nat × Nat)
  | 0, _, _, _ => none
  | fuel + 1, db, oldest, added =>
    let page := fetch (some oldest) none
    if page.isEmpty then
      some (db, oldest, added)
    else
      let res := TinyDBArchive.add_messages db page true
      backwardLoop fetch fuel res.1 (pageMin oldest page) (added + res.2)

/-- The tail of `archive_channel` after the watermark phase: the forward
loop, then the backward loop, then `self.archive.flush()` and
`return added` (lines 259-278). -/
def runLoops (fetch : Option Nat → Option Nat → List Record) (fuel : Nat)
    (db : List Record) (oldest latest added : Nat) : Option SyncResult :=
  match forwardLoop fetch fuel db latest added with
  | none => none
  | some fwd =>
    match backwardLoop fetch fuel fwd.1 oldest fwd.2.2 with
    | none => none
    | some bwd => some ⟨bwd.1, bwd.2.2, true⟩

/-- `Archiver.archive_channel(channel)` (lines 226-278), instantiated with
the TinyDB backend (the default).  `enum` is the sequence that
`self.archive.get_messages(channel=channel)` yields: the stored records of
the channel in the backend's implementation-defined enumeration order.
If `enum` is empty (`StopAsyncIteration` on the first `__anext__`), the
bootstrap fetch runs; an empty bootstrap page returns 0 immediately with no
flush, otherwise the page is inserted `all_new=True` and, `messages` now
being a plain list, the watermark loop scans the whole page starting from
`messages[0]`.  Otherwise the watermark loop scans the rest of the
enumeration starting from the first yielded record. -/
def archive_channel (fetch : Option Nat → Option Nat → List Record) (fuel : Nat)
    (enum db : List Record) : Option SyncResult :=
  match enum with
  | [] =>
    match fetch none none with
    | [] => some ⟨db, 0, false⟩
    | m1 :: rest =>
      let page := m1 :: rest
      let res := TinyDBArchive.add_messages db page true
      let wm := computeWatermarks m1 page
      runLoops fetch fuel res.1 wm.1 wm.2 res.2
  | m1 :: rest =>
    let wm := computeWatermarks m1 rest
    runLoops fetch fuel db wm.1 wm.2 0

/-- Insert a record into a list sorted by descending id. -/
def insertByIdDesc (m : Record) : List Record → List Record
  | [] => [m]
  | x :: xs => if x.id ≤ m.id then m :: x :: xs else x :: insertByIdDesc m xs

/-- Sort records by descending id. -/
def sortByIdDesc (l : List Record) : List Record :=
  l.foldr insertByIdDesc []

/-- Insert a record into a list sorted by ascending id. -/
def insertByIdAsc (m : Record) : List Record → List Record
  | [] => [m]
  | x :: xs => if m.id ≤ x.id then m :: x :: xs else x :: insertByIdAsc m xs

/-- Sort records by ascending id. -/
def sortByIdAsc (l : List Record) : List Record :=
  l.foldr insertByIdAsc []

/-- Modelled from the spec: the RemoteFetcher collaborator behind
`Archiver._fetch_messages` (the remote chat service reached through
`self.bot.http.request`) is external to this repository.  Per the spec's
contract it returns up to `limit` events of the channel's history `remote`
satisfying the `before`/`after` id constraints, a page being empty exactly
when no further matching events exist; pages are served newest-first except
under `after`, where the remote service pages oldest-first. -/
def remoteFetch (remote : List Record) (limit : Nat) (before after : Option Nat) : List Record :=
  let pool := remote.filter (fun r =>
    (match before with
     | none => true
     | some b => decide (r.id < b)) &&
    (match after with
     | none => true
     | some a => decide (a < r.id)))
  match after with
  | some _ => (sortByIdAsc pool).take limit
  | none => (sortByIdDesc pool).take limit

/-- A JSON configuration value as the archiver uses them: strings and
booleans. -/
inductive CVal where
  | str (s : String)
  | bool (b : Bool)
deriving DecidableEq

/-- The configuration dictionary, as an insertion-ordered association list
(Python `dict` semantics). -/
abbrev ConfigMap := List (String × CVal)

/-- Python `d[k]` / `d.get(k)` lookup. -/
def cfgGet : ConfigMap → String → Option CVal
  | [], _ => none
  | (k, v) :: rest, key => if k == key then some v else cfgGet rest key

/-- Python `d[k] = v`: overwrite in place when the key exists, append
otherwise. -/
def cfgSet : ConfigMap → String → CVal → ConfigMap
  | [], key, v => [(key, v)]
  | (k, w) :: rest, key, v =>
    if k == key then (key, v) :: rest else (k, w) :: cfgSet rest key v

/-- Python `d.update(other)`: set every key of `other` into `d`, in
`other`'s order. -/
def cfgUpdate (c other : ConfigMap) : ConfigMap :=
  other.foldl (fun acc kv => cfgSet acc kv.1 kv.2) c

/-- Python `d.setdefault(k, v)`'s effect on the dictionary: insert `v`
under `k` only when `k` is absent.  (Line 205 assigns the returned value
back to the same key, which changes nothing further.) -/
def cfgSetdefault (c : ConfigMap) (key : String) (v : CVal) : ConfigMap :=
  match cfgGet c key with
  | some _ => c
  | none => cfgSet c key v

/-- `DEFAULT_CONFIG = {'backend': 'TinyDB', 'watch': False}` (line 38). -/
def DEFAULT_CONFIG : ConfigMap :=
  [("backend", CVal.str "TinyDB"), ("watch", CVal.bool false)]

/-- The `DEFAULT_PATH` registry dictionary (lines 37, 138, 171), populated
for the two backends whose driver imports succeed. -/
def DEFAULT_PATH (backend : String) : Option String :=
  if backend == "TinyDB" then some "data/archiver/messages.json"
  else if backend == "MongoDB" then some "mongodb://localhost/discordArchiver"
  else none

/-- The keys of the `archive_backends` registry dictionary
(lines 36, 137, 170). -/
def archive_backends : List String := ["TinyDB", "MongoDB"]

/-- The observable state of one `Archiver` instance: its in-memory
`self.config`, the contents of `config.json` on disk (`none` = no file),
which backend `self.archive` was built from, and how many times
`_make_backend` has run. -/
structure ServiceState where
  config : ConfigMap
  disk : Option ConfigMap
  activeBackend : Option String
  backendBuilds : Nat
deriving DecidableEq

/-- `Archiver._load_config` (lines 187-194): reset `self.config` to a copy
of the defaults, then `update` it with the file's contents when the file
exists. -/
def loadConfig (s : ServiceState) : ServiceState :=
  { s with config :=
      match s.disk with
      | none => DEFAULT_CONFIG
      | some d => cfgUpdate DEFAULT_CONFIG d }

/-- `Archiver._save_config` (lines 196-199): write `self.config` to the
config file. -/
def saveConfig (s : ServiceState) : ServiceState :=
  { s with disk := some s.config }

/-- `Archiver._make_backend` (lines 201-206).  `self.config['backend']`
raises `KeyError` when missing; `DEFAULT_PATH[backend]` raises when the
backend is unknown (the `Bool` result flags a raised exception, leaving the
state as it was at the raise point); otherwise the `<backend>_path` key is
defaulted into `self.config` and the backend instance is rebuilt.  The
config file is never written here. -/
def makeBackend (s : ServiceState) : ServiceState × Bool :=
  match cfgGet s.config "backend" with
  | some (CVal.str b) =>
    match DEFAULT_PATH b with
    | some p =>
      ({ s with config := cfgSetdefault s.config (b ++ "_path") (CVal.str p),
                activeBackend := some b,
                backendBuilds := s.backendBuilds + 1 }, false)
    | none => (s, true)
  | _ => (s, true)

/-- `Archiver.__init__` (lines 178-185) observed on config state:
`_load_config()`, `_save_config()`, `_make_backend()`, starting from the
given on-disk config file. -/
def initService (disk0 : Option ConfigMap) : ServiceState × Bool :=
  makeBackend (saveConfig (loadConfig ⟨[], disk0, none, 0⟩))

/-- The `archive config reload` branch of `Archiver._archive_config`
(lines 335-337): `_load_config()` then `_make_backend()` — and nothing
else. -/
def reloadCommand (s : ServiceState) : ServiceState × Bool :=
  makeBackend (loadConfig s)

/-- The `archive config <key> <value>` branch of `Archiver._archive_config`
(lines 338-353).  Command arguments arrive as strings.  Setting `backend`
to a name outside the registry replies and returns before any mutation;
otherwise the key is set, a `*_path` or `backend` key triggers
`_make_backend()`, and `_save_config()` runs last (skipped if the rebuild
raised). -/
def configSetCommand (s : ServiceState) (key value : String) : ServiceState × Bool :=
  if key == "backend" && !(archive_backends.contains value) then
    (s, false)
  else
    let s1 := if key == "backend" then { s with config := cfgSet s.config key (CVal.str value) } else s
    let s2 := { s1 with config := cfgSet s1.config key (CVal.str value) }
    if (decide (key.length > 5) && key.endsWith "_path") || key == "backend" then
      let mb := makeBackend s2
      if mb.2 then (mb.1, true)
      else ({ mb.1 with disk := some mb.1.config }, false)
    else
      ({ s2 with disk := some s2.config }, false)

/-- The TinyDB duplicate test and the Mongo `find_one` probe agree: the
store contains the id exactly when the lookup finds a document. -/
theorem tinyContains_eq_findSome (db : List Record) (i : Nat) :
    tinyContains db i = (mongoFindOne db i).isSome := by
  induction db with
  | nil => rfl
  | cons m rest ih =>
    unfold tinyContains mongoFindOne at *
    cases hm : (m.id == i) <;> simp [List.find?_cons, hm, ih]

/-- `_make_backend` never touches the config file on disk. -/
theorem makeBackend_disk (s : ServiceState) : (makeBackend s).1.disk = s.disk := by
  unfold makeBackend
  split
  · split <;> rfl
  · rfl

/-- Every `some` result of the post-watermark loop phase has run `flush()`:
the only return without a flush is the early empty-bootstrap exit, which
happens before `runLoops`. -/
theorem runLoops_flushed (fetch : Option Nat → Option Nat → List Record) (fuel : Nat)
    (db : List Record) (oldest latest added : Nat) (r : SyncResult)
    (h : runLoops fetch fuel db oldest latest added = some r) : r.flushed = true := by
  unfold runLoops at h
  split at h
  · cases h
  · split at h
    · cases h
    · simp only [Option.some.injEq] at h
      subst h
      rfl

/-- C1: the claim says that after the watermark phase of `archive_channel`,
`oldest_id` is the minimum and `latest_id` the maximum of the stored ids of
the channel, regardless of enumeration order.  The code instead computes
`oldest_id = min(latest_id, id)` (lines 250/255), forgetting the running
minimum: for the enumeration [1, 5, 10] of channel 7 it yields
`oldest_id = 5` although the minimum stored id is 1 (the maximum, 10, is
right). -/
theorem c1_watermark_min_wrong :
    computeWatermarks ⟨1, 0, 7⟩ [⟨5, 0, 7⟩, ⟨10, 0, 7⟩] = (5, 10) := by
  decide

/-- C2 counterexample: the claim extends the no-duplicate guarantee to
`all_new=True` calls, but with `all_new=True` both backends insert
unconditionally: TinyDB ends up with two stored records of id 4, and the
Mongo backend's `insert_one` raises a duplicate-key error. -/
theorem c2_all_new_duplicates :
    TinyDBArchive.add_messages [⟨4, 1, 2⟩] [⟨4, 1, 2⟩] true
        = ([⟨4, 1, 2⟩, ⟨4, 1, 2⟩], 1) ∧
    MongoMotorArchive.add_messages [⟨4, 1, 2⟩] [⟨4, 1, 2⟩] true
        = Except.error "DuplicateKeyError" :=
  ⟨rfl, rfl⟩

/-- C2 amended: with `all_new=False`, re-adding a record whose id is
already stored is a no-op on both backends — no error, no insertion, count
0, store unchanged. -/
theorem c2_existing_id_noop (db : List Record) (r : Record)
    (h : tinyContains db r.id = true) :
    TinyDBArchive.add_messages db [r] false = (db, 0) ∧
    MongoMotorArchive.add_messages db [r] false = Except.ok (db, 0) := by
  have hf : (mongoFindOne db r.id).isSome = true := by
    rw [← tinyContains_eq_findSome]; exact h
  constructor
  · simp [TinyDBArchive.add_messages, h]
  · cases hm : mongoFindOne db r.id with
    | none => rw [hm] at hf; simp at hf
    | some x => simp [MongoMotorArchive.add_messages, hm]

/-- C2 amended, witnessed at a concrete store holding id 4. -/
theorem c2_existing_id_noop_witness :
    TinyDBArchive.add_messages [⟨4, 1, 2⟩] [⟨4, 1, 2⟩] false = ([⟨4, 1, 2⟩], 0) ∧
    MongoMotorArchive.add_messages [⟨4, 1, 2⟩] [⟨4, 1, 2⟩] false
        = Except.ok ([⟨4, 1, 2⟩], 0) :=
  c2_existing_id_noop [⟨4, 1, 2⟩] ⟨4, 1, 2⟩ rfl

/-- C3: the claim says a second `archive_channel` call with no remote
events outside the stored id range adds nothing, for every backend
enumeration order.  With remote history exactly {1, 5, 10} of channel 7 and
those same records stored, the first call (insertion-order enumeration
[1, 5, 10]) miscomputes `oldest_id = 5`, re-fetches id 1 below it and
stores a duplicate, returning 1; the second call, under the enumeration
[1, 1, 10, 5] (a permutation of the then-stored records, checked by the
last conjunct — the storage contract guarantees no order), again returns 1
instead of the claimed 0, storing a third copy of id 1. -/
theorem c3_reconcile_not_idempotent :
    archive_channel (remoteFetch [⟨1, 0, 7⟩, ⟨5, 0, 7⟩, ⟨10, 0, 7⟩] 100) 10
        [⟨1, 0, 7⟩, ⟨5, 0, 7⟩, ⟨10, 0, 7⟩] [⟨1, 0, 7⟩, ⟨5, 0, 7⟩, ⟨10, 0, 7⟩]
      = some ⟨[⟨1, 0, 7⟩, ⟨5, 0, 7⟩, ⟨10, 0, 7⟩, ⟨1, 0, 7⟩], 1, true⟩ ∧
    archive_channel (remoteFetch [⟨1, 0, 7⟩, ⟨5, 0, 7⟩, ⟨10, 0, 7⟩] 100) 10
        [⟨1, 0, 7⟩, ⟨1, 0, 7⟩, ⟨10, 0, 7⟩, ⟨5, 0, 7⟩] [⟨1, 0, 7⟩, ⟨5, 0, 7⟩, ⟨10, 0, 7⟩, ⟨1, 0, 7⟩]
      = some ⟨[⟨1, 0, 7⟩, ⟨5, 0, 7⟩, ⟨10, 0, 7⟩, ⟨1, 0, 7⟩, ⟨1, 0, 7⟩], 1, true⟩ ∧
    List.Perm [⟨1, 0, 7⟩, ⟨1, 0, 7⟩, ⟨10, 0, 7⟩, ⟨5, 0, 7⟩]
      (List.filter (fun m => m.channelId == 7)
        [⟨1, 0, 7⟩, ⟨5, 0, 7⟩, ⟨10, 0, 7⟩, (⟨1, 0, 7⟩ : Record)]) := by
  refine ⟨by decide, by decide, by decide⟩

/-- C4 counterexample: on the path where the channel has no stored records
and the bootstrap fetch is empty, `archive_channel` returns 0 without
calling `flush()` (the `return 0` at line 242 precedes the flush at
line 277), so the claim that every return path flushes is false. -/
theorem c4_no_flush_on_empty_path :
    archive_channel (fun _ _ => []) 2 [] [] = some ⟨[], 0, false⟩ :=
  rfl

/-- C4 amended: `archive_channel` flushes the backend before returning on
every return path except the early exit, which is taken exactly when the
channel has no stored records and the initial fetch is empty (and on which
nothing was written). -/
theorem c4_flush_on_return (fetch : Option Nat → Option Nat → List Record) (fuel : Nat)
    (enum db : List Record) (r : SyncResult)
    (h : archive_channel fetch fuel enum db = some r) :
    r.flushed = false ↔ (enum = [] ∧ fetch none none = []) := by
  unfold archive_channel at h
  cases enum with
  | nil =>
    cases hp : fetch none none with
    | nil =>
      rw [hp] at h
      simp only [Option.some.injEq] at h
      subst h
      simp [hp]
    | cons m1 rest =>
      rw [hp] at h
      have hfl : r.flushed = true := runLoops_flushed _ _ _ _ _ _ _ h
      rw [hfl]
      simp [hp]
  | cons m1 rest =>
    have hfl : r.flushed = true := runLoops_flushed _ _ _ _ _ _ _ h
    rw [hfl]
    simp

/-- C4 amended, witnessed on the early-exit path. -/
theorem c4_flush_on_return_witness :
    (SyncResult.flushed ⟨[], 0, false⟩ = false ↔
      (([] : List Record) = [] ∧ (fun (_ _ : Option Nat) => ([] : List Record)) none none = [])) :=
  c4_flush_on_return (fun _ _ => []) 1 [] [] ⟨[], 0, false⟩ rfl

/-- C5 counterexample: the `reload` branch of the config command calls
`_load_config()` and `_make_backend()` but never `_save_config()`.
Reloading from a config file that lacks the `watch` key fills the default
into memory (and `_make_backend` adds the path key there too), yet the file
on disk still holds only its old single key — the merged result is not
written back. -/
theorem c5_reload_not_saved :
    (reloadCommand ⟨[], some [("backend", CVal.str "TinyDB")], some "TinyDB", 1⟩).1.config
        = [("backend", CVal.str "TinyDB"), ("watch", CVal.bool false),
           ("TinyDB_path", CVal.str "data/archiver/messages.json")] ∧
    (reloadCommand ⟨[], some [("backend", CVal.str "TinyDB")], some "TinyDB", 1⟩).1.disk
        = some [("backend", CVal.str "TinyDB")] :=
  ⟨rfl, rfl⟩

/-- C5 amended: at service start `__init__` merges the defaults over the
loaded file and immediately writes the merged result back to disk (also
materialising the file when none existed); the `reload` command merges the
defaults in memory only and leaves the config file on disk untouched. -/
theorem c5_merge_saved_only_at_start (d : ConfigMap) (s : ServiceState) :
    (initService (some d)).1.disk = some (cfgUpdate DEFAULT_CONFIG d) ∧
    (initService none).1.disk = some DEFAULT_CONFIG ∧
    (reloadCommand s).1.disk = s.disk := by
  refine ⟨?_, ?_, ?_⟩
  · show (makeBackend (saveConfig (loadConfig ⟨[], some d, none, 0⟩))).1.disk = _
    rw [makeBackend_disk]
    rfl
  · show (makeBackend (saveConfig (loadConfig ⟨[], none, none, 0⟩))).1.disk = _
    rw [makeBackend_disk]
    rfl
  · show (makeBackend (loadConfig s)).1.disk = s.disk
    rw [makeBackend_disk]
    rfl

/-- C6: adding a not-yet-stored record with `all_new=False` twice in a row
returns counts 1 then 0 on both backends, and the store afterwards holds
exactly one copy of it. -/
theorem c6_fresh_upsert (db : List Record) (r : Record)
    (h : tinyContains db r.id = false) :
    TinyDBArchive.add_messages db [r] false = (db ++ [r], 1) ∧
    TinyDBArchive.add_messages (db ++ [r]) [r] false = (db ++ [r], 0) ∧
    List.filter (fun m => m.id == r.id) (db ++ [r]) = [r] ∧
    MongoMotorArchive.add_messages db [r] false = Except.ok (db ++ [r], 1) ∧
    MongoMotorArchive.add_messages (db ++ [r]) [r] false = Except.ok (db ++ [r], 0) := by
  have hnone : ∀ m ∈ db, ¬(m.id == r.id) = true := by
    intro m hm
    have := List.any_eq_false.mp h m hm
    simpa using this
  have hfind : mongoFindOne db r.id = none := by
    unfold mongoFindOne
    exact List.find?_eq_none.mpr hnone
  have hc2 : tinyContains (db ++ [r]) r.id = true := by
    unfold tinyContains
    simp [List.any_append]
  have hfind2 : (mongoFindOne (db ++ [r]) r.id).isSome = true := by
    rw [← tinyContains_eq_findSome]
    exact hc2
  refine ⟨?_, ?_, ?_, ?_, ?_⟩
  · simp [TinyDBArchive.add_messages, h]
  · simp [TinyDBArchive.add_messages, hc2]
  · rw [List.filter_append]
    rw [List.filter_eq_nil_iff.mpr hnone]
    simp
  · simp [MongoMotorArchive.add_messages, hfind]
  · cases hm : mongoFindOne (db ++ [r]) r.id with
    | none => rw [hm] at hfind2; simp at hfind2
    | some x => simp [MongoMotorArchive.add_messages, hm]

/-- C6, witnessed with a fresh record over the empty store. -/
theorem c6_fresh_upsert_witness :
    TinyDBArchive.add_messages [] [⟨1, 2, 3⟩] false = ([⟨1, 2, 3⟩], 1) ∧
    TinyDBArchive.add_messages [⟨1, 2, 3⟩] [⟨1, 2, 3⟩] false = ([⟨1, 2, 3⟩], 0) ∧
    List.filter (fun m => m.id == 1) [(⟨1, 2, 3⟩ : Record)] = [⟨1, 2, 3⟩] ∧
    MongoMotorArchive.add_messages [] [⟨1, 2, 3⟩] false = Except.ok ([⟨1, 2, 3⟩], 1) ∧
    MongoMotorArchive.add_messages [⟨1, 2, 3⟩] [⟨1, 2, 3⟩] false = Except.ok ([⟨1, 2, 3⟩], 0) := by
  have := c6_fresh_upsert [] ⟨1, 2, 3⟩ rfl
  simpa using this

/-- C7: with no stored records for the channel (empty enumeration) and an
empty initial fetch, `archive_channel` returns 0 and the backend store is
returned exactly as it was — nothing added, nothing removed. -/
theorem c7_empty_channel (fetch : Option Nat → Option Nat → List Record) (fuel : Nat)
    (db : List Record) (h : fetch none none = []) :
    archive_channel fetch fuel [] db = some ⟨db, 0, false⟩ := by
  unfold archive_channel
  rw [h]

/-- C7, witnessed over a store holding another channel's record. -/
theorem c7_empty_channel_witness :
    archive_channel (fun _ _ => []) 3 [] [⟨8, 2, 3⟩] = some ⟨[⟨8, 2, 3⟩], 0, false⟩ :=
  c7_empty_channel (fun _ _ => []) 3 [⟨8, 2, 3⟩] rfl

/-- C8 counterexample: `get_messages` normalises a bare id with
`elif user:`, so the Python-falsy raw id 0 is silently treated as "no
filter": filtering for author 0 over a store holding a record of author 1
yields that record, whereas the claimed semantics (`get_messages_claim`)
yields nothing. -/
theorem c8_falsy_filter_ignored :
    Archive.get_messages [⟨99, 1, 2⟩] (some (FilterArg.raw 0)) none = [⟨99, 1, 2⟩] ∧
    get_messages_claim [⟨99, 1, 2⟩] (some (FilterArg.raw 0)) none = [] :=
  ⟨rfl, rfl⟩

/-- C8 amended: except for a filter passed as the bare falsy id 0 (which
the truthiness test drops), `get_messages` yields exactly the stored
records whose author id and channel id match the given optional filters,
an omitted filter matching everything — i.e. it agrees with the claimed
filter semantics `get_messages_claim`. -/
theorem c8_filter_semantics (db : List Record) (user channel : Option FilterArg)
    (hu : user ≠ some (FilterArg.raw 0)) (hc : channel ≠ some (FilterArg.raw 0)) :
    Archive.get_messages db user channel = get_messages_claim db user channel := by
  have huser : resolveFilter user = claimedId user := by
    match user with
    | none => rfl
    | some (FilterArg.obj i) => rfl
    | some (FilterArg.dict i) => rfl
    | some (FilterArg.raw i) =>
      have hi : ¬(i == 0) = true := by
        intro h0
        have hz : i = 0 := by simpa using h0
        exact hu (by rw [hz])
      simp [resolveFilter, claimedId, hi]
  have hchan : resolveFilter channel = claimedId channel := by
    match channel with
    | none => rfl
    | some (FilterArg.obj i) => rfl
    | some (FilterArg.dict i) => rfl
    | some (FilterArg.raw i) =>
      have hi : ¬(i == 0) = true := by
        intro h0
        have hz : i = 0 := by simpa using h0
        exact hc (by rw [hz])
      simp [resolveFilter, claimedId, hi]
  unfold Archive.get_messages get_messages_claim
  rw [huser, hchan]

/-- C8 amended, witnessed with a truthy bare-id author filter. -/
theorem c8_filter_semantics_witness :
    Archive.get_messages [⟨99, 1, 2⟩, ⟨100, 3, 2⟩] (some (FilterArg.raw 3)) none
      = get_messages_claim [⟨99, 1, 2⟩, ⟨100, 3, 2⟩] (some (FilterArg.raw 3)) none :=
  c8_filter_semantics [⟨99, 1, 2⟩, ⟨100, 3, 2⟩] (some (FilterArg.raw 3)) none
    (by decide) (by decide)

/-- C9: asking the config command to set `backend` to a name outside the
registry is rejected before any mutation: the service state (in-memory
config, on-disk file, active backend, rebuild count) is returned exactly as
it was and no exception is raised. -/
theorem c9_unknown_backend_rejected (s : ServiceState) (v : String)
    (h : archive_backends.contains v = false) :
    configSetCommand s "backend" v = (s, false) := by
  unfold configSetCommand
  rw [h]
  rfl

/-- C9, witnessed with the unknown backend name "ZODB". -/
theorem c9_unknown_backend_rejected_witness :
    configSetCommand ⟨DEFAULT_CONFIG, some DEFAULT_CONFIG, some "TinyDB", 1⟩ "backend" "ZODB"
      = (⟨DEFAULT_CONFIG, some DEFAULT_CONFIG, some "TinyDB", 1⟩, false) :=
  c9_unknown_backend_rejected ⟨DEFAULT_CONFIG, some DEFAULT_CONFIG, some "TinyDB", 1⟩ "ZODB"
    (by decide)

/-- C10: initialising the service with no pre-existing config file raises
nothing, leaves `TinyDB_path` set to its default in the in-memory config,
yet the file written to disk is exactly the two-key default config without
any path key — because `_save_config` runs before `_make_backend` inserts
the path, and `_make_backend` (as the last conjunct states for every state)
never writes the config file. -/
theorem c10_path_key_in_memory_only :
    (initService none).2 = false ∧
    cfgGet (initService none).1.config "TinyDB_path"
      = some (CVal.str "data/archiver/messages.json") ∧
    (initService none).1.disk = some DEFAULT_CONFIG ∧
    cfgGet DEFAULT_CONFIG "TinyDB_path" = none ∧
    ∀ s : ServiceState, (makeBackend s).1.disk = s.disk :=
  ⟨rfl, rfl, rfl, rfl, fun s => makeBackend_disk s⟩
